import Mathlib

/-!
Shallow embedding of the `fit-pw` Playwright login test harness.

Embedded from the source:
* `LoginDataFactory` (src/unnamed/part_000): `validCredentials`,
  `invalidCredentials`, `randomPassword`.
* `LoginPage` (src/test-framework/pages/LoginPage.ts): four locators
  resolved in the constructor, the actions `navigate`, `enterUsername`,
  `enterPassword`, `clickLoginButton`, the composite `login`, and the
  accessors `getErrorMessage`, `isErrorMessageVisible`.

External collaborators (the browser automation engine, the application
under test, and the fake-data generator) are not part of the repository;
where a claim depends on them they are modelled from the specification,
marked `Modelled from the spec:` in the doc comment.

JavaScript runtime conventions used throughout the embedding:
* a value that may be `undefined` is `Option String`;
* a thrown exception is the `Except.error` branch (the TypeScript
  non-null assertion `x!` is a compile-time cast, erased at runtime, so
  it is the identity here);
* the mutable process state (environment map, generator seed) is passed
  explicitly and returned.
-/

/-- The process environment keys the repository reads (`process.env`).
A missing key is `none` (JavaScript `undefined`). -/
structure Env where
  BASE_URL : Option String
  VALID_USERNAME : Option String
  VALID_USER_PASSWORD : Option String
deriving DecidableEq, Repr

/-- The mutable state of the Node process visible to the data factory:
the read-only environment plus the fake-data generator's seed. -/
structure ProcState where
  env : Env
  rng : Nat
deriving DecidableEq, Repr

/-- A thrown JavaScript exception. -/
inductive JsError where
  | thrown (msg : String)
deriving DecidableEq, Repr

/-- The `LoginCredentials` interface. Field types reflect the runtime:
a field produced from a missing environment value holds `undefined`
(`none`), even though the TypeScript annotation says `string`. -/
structure LoginCredentials where
  username : Option String
  password : Option String
deriving DecidableEq, Repr

/-- Modelled from the spec: the external fake-data generator's
pseudo-random step (faker's internal RNG is out of scope, "random data
generation library internals"); a standard linear congruential step. -/
def lcgNext (n : Nat) : Nat :=
  (1103515245 * n + 12345) % 2147483648

/-- Modelled from the spec: the alphabet the external generator draws
password characters from. -/
def passwordAlphabet : List Char :=
  "abcdefghijklmnopqrstuvwxyzABCDEFGHIJKLMNOPQRSTUVWXYZ0123456789".toList

/-- Modelled from the spec: a run of `n` pseudo-random characters from
seed `g`, returning the characters and the advanced seed. -/
def genChars : Nat → Nat → List Char × Nat
  | g, 0 => ([], g)
  | g, n + 1 =>
    let c := passwordAlphabet.getD (g % passwordAlphabet.length) 'a'
    let r := genChars (lcgNext g) n
    (c :: r.1, r.2)

/-- Modelled from the spec: `faker.internet.password()` — "returns a
single freshly generated pseudo-random password string"; faker's default
password length is 15 characters. Returns the string and the advanced
generator seed. -/
def fakerInternetPassword (g : Nat) : String × Nat :=
  (String.mk (genChars g 15).1, (genChars g 15).2)

/-- Modelled from the spec: the first-name pool the external generator
draws usernames from. -/
def fakerFirstNames : List String :=
  ["Amir", "Lena", "Noa", "Iris"]

/-- Modelled from the spec: `faker.internet.userName()` — a freshly
generated pseudo-random username (a name joined to a number, as the
external generator produces). Returns the string and the advanced
generator seed. -/
def fakerInternetUserName (g : Nat) : String × Nat :=
  (fakerFirstNames.getD (g % fakerFirstNames.length) "User"
      ++ "_" ++ toString (g / 4 % 100),
    lcgNext g)

namespace LoginDataFactory

/-- Method `LoginDataFactory.validCredentials` (src/unnamed/part_000 lines
9-14): `return { username: process.env.VALID_USERNAME!, password:
process.env.VALID_USER_PASSWORD! }`. The non-null assertion `!` is
erased at runtime, so property access passes a missing value through as
`undefined` and the method body has no throwing construct: the result is
always `Except.ok`. It reads only the environment and leaves the process
state untouched. -/
def validCredentials (st : ProcState) :
    Except JsError LoginCredentials × ProcState :=
  (Except.ok
    { username := st.env.VALID_USERNAME
      password := st.env.VALID_USER_PASSWORD },
    st)

/-- Method `LoginDataFactory.invalidCredentials` (src/unnamed/part_000 lines
16-21): `return { username: faker.internet.userName(), password:
faker.internet.password() }` — two generator calls, advancing the
generator state; no throwing construct. -/
def invalidCredentials (st : ProcState) :
    Except JsError LoginCredentials × ProcState :=
  let u := fakerInternetUserName st.rng
  let p := fakerInternetPassword u.2
  (Except.ok { username := some u.1, password := some p.1 },
    { st with rng := p.2 })

/-- Method `LoginDataFactory.randomPassword` (src/unnamed/part_000 lines
23-25): `return faker.internet.password()` — one generator call; no
throwing construct. -/
def randomPassword (st : ProcState) : Except JsError String × ProcState :=
  let p := fakerInternetPassword st.rng
  (Except.ok p.1, { st with rng := p.2 })

end LoginDataFactory

/-- A Playwright selector as used by this repository: `getByPlaceholder`,
`getByRole`, `getByTestId`. -/
inductive Selector where
  | placeholder (value : String)
  | role (r : String) (name : String)
  | testId (value : String)
deriving DecidableEq, Repr

/-- A Playwright `Locator`: the page it was created from plus the
selector; element resolution against the DOM is lazy, at action time. -/
structure Locator where
  page : Nat
  selector : Selector
deriving DecidableEq, Repr

/-- The application's user database, which the configuration mirrors
(`VALID_USERNAME` / `VALID_USER_PASSWORD`): one valid account. -/
structure Config where
  validUsername : String
  validPassword : String
deriving DecidableEq, Repr

/-- Which screen of the application under test is loaded. -/
inductive Route where
  | loginForm
  | inventory
deriving DecidableEq, Repr

/-- Modelled from the spec: the observable state of the application
under test (the external website) inside one browser page/session:
which screen is shown, the two form field values, and the error banner
(`none` when the banner is absent). -/
structure AppState where
  cfg : Config
  route : Route
  usernameField : String
  passwordField : String
  errorBanner : Option String
deriving DecidableEq, Repr

/-- Modelled from the spec: which elements the application's screens
expose. The login form has the `Username` and `Password` placeholder
inputs and the `Login` button; the `error` test-id banner exists exactly
when an error message is set; the inventory screen has none of them. -/
def elementPresent (s : AppState) (sel : Selector) : Bool :=
  match sel with
  | Selector.placeholder v =>
    decide (s.route = Route.loginForm) && (v == "Username" || v == "Password")
  | Selector.role r n =>
    decide (s.route = Route.loginForm) && (r == "button" && n == "Login")
  | Selector.testId v =>
    v == "error" && decide (s.route = Route.loginForm) && s.errorBanner.isSome

/-- Modelled from the spec (section 8, Testable Properties): the
application's reaction to a submitted login form. Valid configured
credentials transition to the authenticated landing URL; both fields
empty yields exactly "Epic sadface: Username is required"; any other
pair yields exactly "Epic sadface: Username and password do not match
any user in this service". -/
def submitLogin (s : AppState) : AppState :=
  if s.usernameField = s.cfg.validUsername ∧ s.passwordField = s.cfg.validPassword then
    { s with route := Route.inventory, errorBanner := none }
  else if s.usernameField = "" ∧ s.passwordField = "" then
    { s with errorBanner := some "Epic sadface: Username is required" }
  else
    { s with errorBanner := some "Epic sadface: Username and password do not match any user in this service" }

/-- A failed Playwright action: the engine's timeout on the selector
whose element never became actionable. -/
inductive PwError where
  | timeout (sel : Selector)
deriving DecidableEq, Repr

/-- One interaction the engine performs against the browser, recorded so
that "performs no other interaction" is a statement about traces. -/
inductive PwEvent where
  | goto (url : String)
  | fill (sel : Selector) (text : String)
  | click (sel : Selector)
  | readText (sel : Selector)
  | queryVisible (sel : Selector)
deriving DecidableEq, Repr

/-- An asynchronous page action: from a page state it produces a result
or a propagated error, the new page state, and the trace of engine
interactions it performed. -/
def ActionM (α : Type) : Type :=
  AppState → Except PwError α × AppState × List PwEvent

/-- Sequential composition of page actions (`await a; await b` in an
async method body): an error in the first action short-circuits, exactly
as an uncaught exception does. -/
def bindA {α β : Type} (x : ActionM α) (f : α → ActionM β) : ActionM β :=
  fun s =>
    match x s with
    | (Except.ok a, s1, t1) =>
      let r := f a s1
      (r.1, r.2.1, t1 ++ r.2.2)
    | (Except.error e, s1, t1) => (Except.error e, s1, t1)

/-- Modelled from the spec: the engine's `goto` — loads the
application's root URL, presenting a fresh login form (configuration is
server side and survives navigation). -/
def engineGoto (url : String) : ActionM Unit :=
  fun s =>
    (Except.ok (),
      { s with route := Route.loginForm, usernameField := "",
               passwordField := "", errorBanner := none },
      [PwEvent.goto url])

/-- Modelled from the spec: the effect of filling an element: the
`Username` and `Password` placeholder inputs store the typed text;
nothing else changes. -/
def applyFill (s : AppState) (sel : Selector) (text : String) : AppState :=
  if sel = Selector.placeholder "Username" then { s with usernameField := text }
  else if sel = Selector.placeholder "Password" then { s with passwordField := text }
  else s

/-- Modelled from the spec: the engine's `fill` — auto-waits for the
element; if it never appears the action fails with the timeout
condition, otherwise the text is typed into it. -/
def engineFill (loc : Locator) (text : String) : ActionM Unit :=
  fun s =>
    if elementPresent s loc.selector then
      (Except.ok (), applyFill s loc.selector text, [PwEvent.fill loc.selector text])
    else
      (Except.error (PwError.timeout loc.selector), s, [PwEvent.fill loc.selector text])

/-- Modelled from the spec: the engine's `click` — auto-waits for the
element; clicking the `Login` button submits the form. -/
def engineClick (loc : Locator) : ActionM Unit :=
  fun s =>
    if elementPresent s loc.selector then
      (Except.ok (),
        (if loc.selector = Selector.role "button" "Login" then submitLogin s else s),
        [PwEvent.click loc.selector])
    else
      (Except.error (PwError.timeout loc.selector), s, [PwEvent.click loc.selector])

/-- Modelled from the spec: the text content an element exposes; the
error banner's content is the error message. -/
def readTextOf (s : AppState) (sel : Selector) : Option String :=
  if sel = Selector.testId "error" then s.errorBanner else some ""

/-- Modelled from the spec: the engine's `textContent` — auto-waits for
the element and returns its text (`string | null` is `Option String`);
reading mutates nothing. -/
def engineTextContent (loc : Locator) : ActionM (Option String) :=
  fun s =>
    if elementPresent s loc.selector then
      (Except.ok (readTextOf s loc.selector), s, [PwEvent.readText loc.selector])
    else
      (Except.error (PwError.timeout loc.selector), s, [PwEvent.readText loc.selector])

/-- Modelled from the spec: the engine's `isVisible` — returns
immediately whether the element is present and visible; it neither
waits, fails, nor mutates. -/
def engineIsVisible (loc : Locator) : ActionM Bool :=
  fun s =>
    (Except.ok (elementPresent s loc.selector), s, [PwEvent.queryVisible loc.selector])

/-- Playwright `page.getByPlaceholder(v)`: a locator bound to `page`. -/
def getByPlaceholder (page : Nat) (v : String) : Locator :=
  { page := page, selector := Selector.placeholder v }

/-- Playwright `page.getByRole(r, ...)` with accessible name `n`: a locator bound to `page`. -/
def getByRole (page : Nat) (r n : String) : Locator :=
  { page := page, selector := Selector.role r n }

/-- Playwright `page.getByTestId(v)`: a locator bound to `page`. -/
def getByTestId (page : Nat) (v : String) : Locator :=
  { page := page, selector := Selector.testId v }

/-- The `LoginPage` page object (LoginPage.ts lines 3-15): the page
reference it was constructed with and the four locator fields, all
`private readonly` — assigned once, in the constructor. -/
structure LoginPage where
  page : Nat
  usernameInput : Locator
  passwordInput : Locator
  loginButton : Locator
  errorMessage : Locator
deriving DecidableEq, Repr

namespace LoginPage

/-- The `LoginPage` constructor (LoginPage.ts lines 10-15): resolves the
four locators against the page passed in, once. -/
def make (page : Nat) : LoginPage :=
  { page := page
    usernameInput := getByPlaceholder page "Username"
    passwordInput := getByPlaceholder page "Password"
    loginButton := getByRole page "button" "Login"
    errorMessage := getByTestId page "error" }

/-- Method `navigate()` (LoginPage.ts lines 17-19): `await this.page.goto("/")`. -/
def navigate (_lp : LoginPage) : ActionM Unit :=
  engineGoto "/"

/-- Method `enterUsername(username)` (LoginPage.ts lines 21-23):
`await this.usernameInput.fill(username)`. -/
def enterUsername (lp : LoginPage) (username : String) : ActionM Unit :=
  engineFill lp.usernameInput username

/-- Method `enterPassword(password)` (LoginPage.ts lines 25-27):
`await this.passwordInput.fill(password)`. -/
def enterPassword (lp : LoginPage) (password : String) : ActionM Unit :=
  engineFill lp.passwordInput password

/-- Method `clickLoginButton()` (LoginPage.ts lines 29-31):
`await this.loginButton.click()`. -/
def clickLoginButton (lp : LoginPage) : ActionM Unit :=
  engineClick lp.loginButton

/-- Method `login(username, password)` (LoginPage.ts lines 33-37): the three
awaited calls in order, with no other statement and no try/catch. -/
def login (lp : LoginPage) (username password : String) : ActionM Unit :=
  bindA (lp.enterUsername username) fun _ =>
    bindA (lp.enterPassword password) fun _ =>
      lp.clickLoginButton

/-- Method `getErrorMessage()` (LoginPage.ts lines 39-41):
`return await this.errorMessage.textContent()`. -/
def getErrorMessage (lp : LoginPage) : ActionM (Option String) :=
  engineTextContent lp.errorMessage

/-- Method `isErrorMessageVisible()` (LoginPage.ts lines 43-45):
`return await this.errorMessage.isVisible()`. -/
def isErrorMessageVisible (lp : LoginPage) : ActionM Bool :=
  engineIsVisible lp.errorMessage

end LoginPage

/-- The error text the invalid-credential scenarios assert
(login.spec.ts lines 28 and 37). -/
def mismatchMessage : String :=
  "Epic sadface: Username and password do not match any user in this service"

/-! ## Helper lemmas -/

/-- A pseudo-random character run has exactly the requested length. -/
theorem genChars_fst_length (g n : Nat) : ((genChars g n).1).length = n := by
  induction n generalizing g with
  | zero => rfl
  | succ n ih => simp [genChars, ih]

/-- The generated password string has faker's default length, 15. -/
theorem fakerInternetPassword_length (g : Nat) :
    ((fakerInternetPassword g).1).length = 15 :=
  genChars_fst_length g 15

/-- Submitting a form whose username does not match the valid account
and whose password field is non-empty sets exactly the mismatch banner
and changes nothing else. -/
theorem submitLogin_mismatch (s : AppState)
    (hu : s.usernameField ≠ s.cfg.validUsername)
    (hp : s.passwordField ≠ "") :
    submitLogin s = { s with errorBanner := some mismatchMessage } := by
  have h1 : ¬(s.usernameField = s.cfg.validUsername ∧
      s.passwordField = s.cfg.validPassword) := fun h => hu h.1
  have h2 : ¬(s.usernameField = "" ∧ s.passwordField = "") := fun h => hp h.2
  simp [submitLogin, h1, h2, mismatchMessage]

/-! ## Claims -/

/-- C1 counterexample: with `VALID_USERNAME` absent from the process
environment, `validCredentials` does not throw — the TypeScript
non-null assertion is erased at runtime — so the call returns
`Except.ok` with the missing value passed through as `undefined`,
contradicting the claim that it fails by throwing whenever either
configuration value is absent. -/
theorem validCredentials_missing_env_does_not_throw :
    (LoginDataFactory.validCredentials
      { env := { BASE_URL := none, VALID_USERNAME := none,
                 VALID_USER_PASSWORD := some "secret_sauce" }, rng := 0 }).1
      = Except.ok { username := none, password := some "secret_sauce" } := rfl

/-- C1 (amended): `validCredentials()` never throws, whatever the
environment: the non-null assertions are erased at runtime, so an
absent configuration value is passed through as `undefined` in the
corresponding field; when both `VALID_USERNAME` and
`VALID_USER_PASSWORD` are present it returns the credentials record
`{username, password}` read from that configuration. -/
theorem validCredentials_total_reads_config (st : ProcState) (u p : String) :
    (∃ c, (LoginDataFactory.validCredentials st).1 = Except.ok c) ∧
    (st.env.VALID_USERNAME = some u → st.env.VALID_USER_PASSWORD = some p →
      (LoginDataFactory.validCredentials st).1
        = Except.ok { username := some u, password := some p }) := by
  refine ⟨⟨_, rfl⟩, ?_⟩
  intro h1 h2
  simp [LoginDataFactory.validCredentials, h1, h2]

/-- C1 witness: at a fully configured environment the amended theorem
yields the configured record. -/
theorem validCredentials_total_reads_config_witness :
    (LoginDataFactory.validCredentials
      { env := { BASE_URL := none, VALID_USERNAME := some "standard_user",
                 VALID_USER_PASSWORD := some "secret_sauce" }, rng := 0 }).1
      = Except.ok { username := some "standard_user",
                    password := some "secret_sauce" } :=
  (validCredentials_total_reads_config
    { env := { BASE_URL := none, VALID_USERNAME := some "standard_user",
               VALID_USER_PASSWORD := some "secret_sauce" }, rng := 0 }
    "standard_user" "secret_sauce").2 rfl rfl

/-- C2: `validCredentials()` is deterministic for a fixed configuration:
two process states with the same environment give equal results whatever
their random seeds (so the result does not depend on the random source),
the call leaves the process state untouched, and a second call made
right after the first returns the same record. -/
theorem validCredentials_deterministic (st1 st2 : ProcState)
    (henv : st1.env = st2.env) :
    (LoginDataFactory.validCredentials st1).1
      = (LoginDataFactory.validCredentials st2).1 ∧
    (LoginDataFactory.validCredentials st1).2 = st1 ∧
    (LoginDataFactory.validCredentials
        (LoginDataFactory.validCredentials st1).2).1
      = (LoginDataFactory.validCredentials st1).1 := by
  refine ⟨?_, rfl, rfl⟩
  simp [LoginDataFactory.validCredentials, henv]

/-- C2 witness: same environment, different random seeds, equal results. -/
theorem validCredentials_deterministic_witness :
    (LoginDataFactory.validCredentials
      { env := { BASE_URL := none, VALID_USERNAME := some "standard_user",
                 VALID_USER_PASSWORD := some "secret_sauce" }, rng := 0 }).1
      = (LoginDataFactory.validCredentials
          { env := { BASE_URL := none, VALID_USERNAME := some "standard_user",
                     VALID_USER_PASSWORD := some "secret_sauce" }, rng := 999 }).1 :=
  (validCredentials_deterministic
    { env := { BASE_URL := none, VALID_USERNAME := some "standard_user",
               VALID_USER_PASSWORD := some "secret_sauce" }, rng := 0 }
    { env := { BASE_URL := none, VALID_USERNAME := some "standard_user",
               VALID_USER_PASSWORD := some "secret_sauce" }, rng := 999 }
    rfl).1

/-- C3: `login(username, password)` is exactly the sequential
composition of `enterUsername`, `enterPassword`, `clickLoginButton`, in
that order, and on the login form its interaction trace is exactly the
two fills followed by the button click — no other interaction. -/
theorem login_is_composition_of_three_actions (pid : Nat) (u p : String)
    (s : AppState) (hroute : s.route = Route.loginForm) :
    ((LoginPage.make pid).login u p) s
      = bindA ((LoginPage.make pid).enterUsername u) (fun _ =>
          bindA ((LoginPage.make pid).enterPassword p) fun _ =>
            (LoginPage.make pid).clickLoginButton) s ∧
    (((LoginPage.make pid).login u p) s).2.2
      = [PwEvent.fill (Selector.placeholder "Username") u,
         PwEvent.fill (Selector.placeholder "Password") p,
         PwEvent.click (Selector.role "button" "Login")] := by
  obtain ⟨cfg, route, uf, pf, eb⟩ := s
  cases hroute
  exact ⟨rfl, rfl⟩

/-- C3 witness: the composition and its exact three-event trace at a
concrete page, credentials and login-form state. -/
theorem login_is_composition_of_three_actions_witness :
    (((LoginPage.make 3).login "abc" "xyz")
        { cfg := { validUsername := "standard_user", validPassword := "secret_sauce" },
          route := Route.loginForm, usernameField := "", passwordField := "",
          errorBanner := none }).2.2
      = [PwEvent.fill (Selector.placeholder "Username") "abc",
         PwEvent.fill (Selector.placeholder "Password") "xyz",
         PwEvent.click (Selector.role "button" "Login")] :=
  (login_is_composition_of_three_actions 3 "abc" "xyz"
    { cfg := { validUsername := "standard_user", validPassword := "secret_sauce" },
      route := Route.loginForm, usernameField := "", passwordField := "",
      errorBanner := none } rfl).2

/-- C4: no operation catches, retries or suppresses an error. A failure
of any of the three engine interactions inside `login` surfaces to the
caller as that same error value with no further interaction attempted
after it; and the data factory operations raise nothing at all (every
call returns `Except.ok`). -/
theorem errors_propagate_uncaught :
    (∀ (lp : LoginPage) (u p : String) (s s1 : AppState) (e : PwError)
        (t1 : List PwEvent),
      engineFill lp.usernameInput u s = (Except.error e, s1, t1) →
      (lp.login u p) s = (Except.error e, s1, t1)) ∧
    (∀ (lp : LoginPage) (u p : String) (s s1 s2 : AppState) (e : PwError)
        (t1 t2 : List PwEvent),
      engineFill lp.usernameInput u s = (Except.ok (), s1, t1) →
      engineFill lp.passwordInput p s1 = (Except.error e, s2, t2) →
      (lp.login u p) s = (Except.error e, s2, t1 ++ t2)) ∧
    (∀ (lp : LoginPage) (u p : String) (s s1 s2 s3 : AppState) (e : PwError)
        (t1 t2 t3 : List PwEvent),
      engineFill lp.usernameInput u s = (Except.ok (), s1, t1) →
      engineFill lp.passwordInput p s1 = (Except.ok (), s2, t2) →
      engineClick lp.loginButton s2 = (Except.error e, s3, t3) →
      (lp.login u p) s = (Except.error e, s3, t1 ++ (t2 ++ t3))) ∧
    (∀ st : ProcState,
      (∃ c, (LoginDataFactory.validCredentials st).1 = Except.ok c) ∧
      (∃ c, (LoginDataFactory.invalidCredentials st).1 = Except.ok c) ∧
      (∃ c, (LoginDataFactory.randomPassword st).1 = Except.ok c)) := by
  refine ⟨?_, ?_, ?_, fun st => ⟨⟨_, rfl⟩, ⟨_, rfl⟩, ⟨_, rfl⟩⟩⟩
  · intro lp u p s s1 e t1 h
    simp [LoginPage.login, LoginPage.enterUsername, bindA, h]
  · intro lp u p s s1 s2 e t1 t2 h1 h2
    simp [LoginPage.login, LoginPage.enterUsername, LoginPage.enterPassword,
      bindA, h1, h2]
  · intro lp u p s s1 s2 s3 e t1 t2 t3 h1 h2 h3
    simp [LoginPage.login, LoginPage.enterUsername, LoginPage.enterPassword,
      LoginPage.clickLoginButton, bindA, h1, h2, h3]

/-- C4 witness: on the inventory screen the username field is absent, so
the first fill times out and `login` returns exactly that timeout after
exactly that one attempted interaction. -/
theorem errors_propagate_uncaught_witness :
    (LoginPage.make 0).login "a" "b"
        { cfg := { validUsername := "u", validPassword := "p" },
          route := Route.inventory, usernameField := "", passwordField := "",
          errorBanner := none }
      = (Except.error (PwError.timeout (Selector.placeholder "Username")),
         { cfg := { validUsername := "u", validPassword := "p" },
           route := Route.inventory, usernameField := "", passwordField := "",
           errorBanner := none },
         [PwEvent.fill (Selector.placeholder "Username") "a"]) :=
  errors_propagate_uncaught.1 (LoginPage.make 0) "a" "b"
    { cfg := { validUsername := "u", validPassword := "p" },
      route := Route.inventory, usernameField := "", passwordField := "",
      errorBanner := none }
    { cfg := { validUsername := "u", validPassword := "p" },
      route := Route.inventory, usernameField := "", passwordField := "",
      errorBanner := none }
    (PwError.timeout (Selector.placeholder "Username"))
    [PwEvent.fill (Selector.placeholder "Username") "a"] rfl

/-- C5: `randomPassword()` returns, from every process state, the
generated password string, and that string is non-empty (its length is
faker's default, 15, hence positive); nothing requires two successive
results to differ. -/
theorem randomPassword_nonempty (st : ProcState) :
    (LoginDataFactory.randomPassword st).1
      = Except.ok (fakerInternetPassword st.rng).1 ∧
    0 < ((fakerInternetPassword st.rng).1).length := by
  refine ⟨rfl, ?_⟩
  rw [fakerInternetPassword_length]
  norm_num

/-- C6: after navigating and submitting the login form with any
username different from the configured valid username, paired with the
configured valid password (assumed non-empty, as configured), the run
succeeds, the error banner carries exactly the mismatch text, and the
page object's accessors then report the banner visible with exactly
that text. -/
theorem invalid_username_shows_mismatch_error (pid : Nat) (u : String)
    (s : AppState) (hu : u ≠ s.cfg.validUsername)
    (hp : s.cfg.validPassword ≠ "") :
    (bindA ((LoginPage.make pid).navigate) fun _ =>
        (LoginPage.make pid).login u s.cfg.validPassword) s
      = (Except.ok (),
         { cfg := s.cfg, route := Route.loginForm, usernameField := u,
           passwordField := s.cfg.validPassword,
           errorBanner := some mismatchMessage },
         [PwEvent.goto "/", PwEvent.fill (Selector.placeholder "Username") u,
          PwEvent.fill (Selector.placeholder "Password") s.cfg.validPassword,
          PwEvent.click (Selector.role "button" "Login")]) ∧
    (∀ s2 : AppState, s2.route = Route.loginForm →
      s2.errorBanner = some mismatchMessage →
      ((LoginPage.make pid).isErrorMessageVisible s2).1 = Except.ok true ∧
      ((LoginPage.make pid).getErrorMessage s2).1
        = Except.ok (some mismatchMessage)) := by
  constructor
  · obtain ⟨⟨vu, vp⟩, route, uf, pf, eb⟩ := s
    have hsub := submitLogin_mismatch
      { cfg := { validUsername := vu, validPassword := vp },
        route := Route.loginForm, usernameField := u,
        passwordField := vp, errorBanner := none } hu hp
    have hrun : (bindA ((LoginPage.make pid).navigate) fun _ =>
        (LoginPage.make pid).login u vp)
        ⟨⟨vu, vp⟩, route, uf, pf, eb⟩
        = (Except.ok (), submitLogin
            { cfg := { validUsername := vu, validPassword := vp },
              route := Route.loginForm, usernameField := u,
              passwordField := vp, errorBanner := none },
           [PwEvent.goto "/", PwEvent.fill (Selector.placeholder "Username") u,
            PwEvent.fill (Selector.placeholder "Password") vp,
            PwEvent.click (Selector.role "button" "Login")]) := rfl
    rw [hrun, hsub]
  · intro s2 h2 h3
    constructor
    · simp [LoginPage.make, LoginPage.isErrorMessageVisible, engineIsVisible,
        getByTestId, elementPresent, h2, h3]
    · simp [LoginPage.make, LoginPage.getErrorMessage, engineTextContent,
        getByTestId, elementPresent, readTextOf, h2, h3]

/-- C6 witness: a concrete wrong username against the documented
configuration, plus the accessor outcomes at the resulting state. -/
theorem invalid_username_shows_mismatch_error_witness :
    (bindA ((LoginPage.make 7).navigate) fun _ =>
        (LoginPage.make 7).login "wrong_user" "secret_sauce")
        { cfg := { validUsername := "standard_user", validPassword := "secret_sauce" },
          route := Route.inventory, usernameField := "x", passwordField := "y",
          errorBanner := none }
      = (Except.ok (),
         { cfg := { validUsername := "standard_user", validPassword := "secret_sauce" },
           route := Route.loginForm, usernameField := "wrong_user",
           passwordField := "secret_sauce",
           errorBanner := some mismatchMessage },
         [PwEvent.goto "/",
          PwEvent.fill (Selector.placeholder "Username") "wrong_user",
          PwEvent.fill (Selector.placeholder "Password") "secret_sauce",
          PwEvent.click (Selector.role "button" "Login")]) ∧
    ((LoginPage.make 7).isErrorMessageVisible
        { cfg := { validUsername := "standard_user", validPassword := "secret_sauce" },
          route := Route.loginForm, usernameField := "wrong_user",
          passwordField := "secret_sauce",
          errorBanner := some mismatchMessage }).1 = Except.ok true ∧
    ((LoginPage.make 7).getErrorMessage
        { cfg := { validUsername := "standard_user", validPassword := "secret_sauce" },
          route := Route.loginForm, usernameField := "wrong_user",
          passwordField := "secret_sauce",
          errorBanner := some mismatchMessage }).1
      = Except.ok (some mismatchMessage) := by
  have h := invalid_username_shows_mismatch_error 7 "wrong_user"
    { cfg := { validUsername := "standard_user", validPassword := "secret_sauce" },
      route := Route.inventory, usernameField := "x", passwordField := "y",
      errorBanner := none } (by decide) (by decide)
  exact ⟨h.1, (h.2 _ rfl rfl).1, (h.2 _ rfl rfl).2⟩

/-- C7: `invalidCredentials()` gives no distinctness guarantee. There is
a process state (a generator seed together with a configured
`VALID_USERNAME`) at which the generated username equals the configured
valid username; and two different generator seeds can produce the same
username, so calls carry no uniqueness or collision guarantee. -/
theorem invalidCredentials_no_distinctness_guarantee :
    (∃ (st st2 : ProcState) (c : LoginCredentials),
      LoginDataFactory.invalidCredentials st = (Except.ok c, st2) ∧
      c.username = st.env.VALID_USERNAME) ∧
    (∃ (st1 st2 : ProcState) (c1 c2 : LoginCredentials),
      st1.rng ≠ st2.rng ∧
      (LoginDataFactory.invalidCredentials st1).1 = Except.ok c1 ∧
      (LoginDataFactory.invalidCredentials st2).1 = Except.ok c2 ∧
      c1.username = c2.username) := by
  constructor
  · exact ⟨{ env := { BASE_URL := none,
                      VALID_USERNAME := some (fakerInternetUserName 0).1,
                      VALID_USER_PASSWORD := none }, rng := 0 },
           _, _, rfl, rfl⟩
  · exact ⟨{ env := { BASE_URL := none, VALID_USERNAME := none,
                      VALID_USER_PASSWORD := none }, rng := 0 },
           { env := { BASE_URL := none, VALID_USERNAME := none,
                      VALID_USER_PASSWORD := none }, rng := 1600 },
           _, _, by decide, rfl, rfl, by decide⟩

/-- C8: the page object resolves its four locators once, in the
constructor, against the page it is given — each stored locator is
bound to that page with the selector written in the source — and every
action is a function of the stored locator fields alone (it equals the
engine primitive applied to the stored locator), so later actions use
exactly the construction-time resolution. -/
theorem locators_resolved_once_at_construction (pid : Nat) (lp : LoginPage)
    (u p : String) :
    (LoginPage.make pid).page = pid ∧
    (LoginPage.make pid).usernameInput
      = { page := pid, selector := Selector.placeholder "Username" } ∧
    (LoginPage.make pid).passwordInput
      = { page := pid, selector := Selector.placeholder "Password" } ∧
    (LoginPage.make pid).loginButton
      = { page := pid, selector := Selector.role "button" "Login" } ∧
    (LoginPage.make pid).errorMessage
      = { page := pid, selector := Selector.testId "error" } ∧
    lp.enterUsername u = engineFill lp.usernameInput u ∧
    lp.enterPassword p = engineFill lp.passwordInput p ∧
    lp.clickLoginButton = engineClick lp.loginButton ∧
    lp.getErrorMessage = engineTextContent lp.errorMessage ∧
    lp.isErrorMessageVisible = engineIsVisible lp.errorMessage ∧
    lp.login u p
      = bindA (engineFill lp.usernameInput u) (fun _ =>
          bindA (engineFill lp.passwordInput p) fun _ =>
            engineClick lp.loginButton) :=
  ⟨rfl, rfl, rfl, rfl, rfl, rfl, rfl, rfl, rfl, rfl, rfl⟩

/-- C9: `getErrorMessage()` and `isErrorMessageVisible()` are read-only:
on every page state each leaves the state exactly as it found it, each
consults only the error-banner locator, the visibility result is the
banner element's presence, and the text result is the banner's content
when the element is there and the engine's timeout otherwise. -/
theorem error_accessors_read_only (lp : LoginPage) (s : AppState) :
    (lp.getErrorMessage s).2.1 = s ∧
    (lp.isErrorMessageVisible s).2.1 = s ∧
    (lp.isErrorMessageVisible s).1
      = Except.ok (elementPresent s lp.errorMessage.selector) ∧
    (lp.getErrorMessage s).1
      = (if elementPresent s lp.errorMessage.selector
          then Except.ok (readTextOf s lp.errorMessage.selector)
          else Except.error (PwError.timeout lp.errorMessage.selector)) := by
  refine ⟨?_, rfl, rfl, ?_⟩
  · simp only [LoginPage.getErrorMessage, engineTextContent]
    split <;> rfl
  · simp only [LoginPage.getErrorMessage, engineTextContent]
    split <;> rfl

/-- C10: the generating factory operations are independent of the
process configuration: two process states with the same generator seed
but arbitrary (possibly different) environments give identical results
for both `invalidCredentials()` and `randomPassword()`. -/
theorem generators_independent_of_env (st1 st2 : ProcState)
    (h : st1.rng = st2.rng) :
    (LoginDataFactory.invalidCredentials st1).1
      = (LoginDataFactory.invalidCredentials st2).1 ∧
    (LoginDataFactory.randomPassword st1).1
      = (LoginDataFactory.randomPassword st2).1 := by
  constructor
  · simp [LoginDataFactory.invalidCredentials, h]
  · simp [LoginDataFactory.randomPassword, h]

/-- C10 witness: same seed, two environments differing in every
configuration value, identical generator outputs. -/
theorem generators_independent_of_env_witness :
    (LoginDataFactory.invalidCredentials
        { env := { BASE_URL := some "https://www.saucedemo.com",
                   VALID_USERNAME := some "standard_user",
                   VALID_USER_PASSWORD := some "secret_sauce" }, rng := 42 }).1
      = (LoginDataFactory.invalidCredentials
          { env := { BASE_URL := none, VALID_USERNAME := none,
                     VALID_USER_PASSWORD := none }, rng := 42 }).1 ∧
    (LoginDataFactory.randomPassword
        { env := { BASE_URL := some "https://www.saucedemo.com",
                   VALID_USERNAME := some "standard_user",
                   VALID_USER_PASSWORD := some "secret_sauce" }, rng := 42 }).1
      = (LoginDataFactory.randomPassword
          { env := { BASE_URL := none, VALID_USERNAME := none,
                     VALID_USER_PASSWORD := none }, rng := 42 }).1 :=
  generators_independent_of_env
    { env := { BASE_URL := some "https://www.saucedemo.com",
               VALID_USERNAME := some "standard_user",
               VALID_USER_PASSWORD := some "secret_sauce" }, rng := 42 }
    { env := { BASE_URL := none, VALID_USERNAME := none,
               VALID_USER_PASSWORD := none }, rng := 42 } rfl
